import Mathlib

/-!
A shallow embedding of the collection / deduplication / relevance pipeline of
the JobSpy Enhanced streamlit application (`streamlit_app.py`).

The upstream scraping client (`scrape_jobs`) and the LLM endpoint are external
collaborators; they are modelled as function parameters (`scrape`, `callModel`)
exactly as the spec treats them ("an opaque function that ... returns a table
of job records or fails").  `Except String` models Python exceptions: `.error`
is "the call raised".

Job records are DataFrame rows; a row is modelled as a structure whose fields
are the columns the pipeline reads or writes.  Columns that a stage may add
later (`time_range`, `search_company`, `ai_score`, `ai_confidence`,
`ai_reasoning`) are `Option`-valued, `none` meaning "column absent".
-/

namespace JobSpy

structure Job where
  title : String
  company : String
  location : String
  description : String
  job_url : String
  /-- `date_posted` after the `pd.to_datetime(..., errors="coerce")` conversion:
  `none` is `NaT`. -/
  date_posted : Option Nat
  time_range : Option String
  search_company : Option String
  ai_score : Option Nat
  ai_confidence : Option String
  ai_reasoning : Option String
deriving DecidableEq, Repr

/-- Substring test, Python's `needle in hay` on strings. -/
def strContains (hay needle : String) : Bool :=
  hay.toList.tails.any (fun t => needle.toList.isPrefixOf t)

/-- Python's regex `\s` (ASCII core; the source strings here are ASCII). -/
def pyIsSpace (c : Char) : Bool :=
  c = ' ' || c = '\t' || c = '\n' || c = '\r' || c = '\x0b' || c = '\x0c'

/-- Numeric value of a run of decimal digits, as Python's `int(...)`. -/
def digitsToNat (ds : List Char) : Nat :=
  ds.foldl (fun n c => 10 * n + (c.toNat - 48)) 0

/-- Python's `str.strip()` (ASCII whitespace; structural recursion, so it
evaluates inside the kernel, unlike `String.trim`). -/
def pyStrip (s : String) : String :=
  String.mk (((s.toList.dropWhile pyIsSpace).reverse.dropWhile pyIsSpace).reverse)

/-- Python's `str.lower()` (ASCII). -/
def pyLower (s : String) : String := String.mk (s.toList.map Char.toLower)

def pySplitGo (cur : List Char) : List Char → List String
  | [] => if cur = [] then [] else [String.mk cur.reverse]
  | c :: cs =>
    if pyIsSpace c then
      if cur = [] then pySplitGo [] cs
      else String.mk cur.reverse :: pySplitGo [] cs
    else pySplitGo (c :: cur) cs

/-- Python's `str.split()` with no argument: split on whitespace runs,
dropping empty pieces. -/
def pySplit (s : String) : List String := pySplitGo [] s.toList

/-- `dropLit p cs` strips the literal `p` from the front of `cs`, failing if it
is not a prefix. -/
def dropLit : List Char → List Char → Option (List Char)
  | [], cs => some cs
  | _ :: _, [] => none
  | p :: ps, c :: cs => if c = p then dropLit ps cs else none

/-- `reSearch m cs` tries the positional matcher `m` at every suffix of `cs`,
left to right — `re.search` semantics (leftmost match wins). -/
def reSearch (m : List Char → Option α) : List Char → Option α
  | [] => m []
  | c :: cs =>
    match m (c :: cs) with
    | some r => some r
    | none => reSearch m cs

/-- One position of `re.search(r'SCORE:\s*(\d+)', s)`: the literal, a greedy
whitespace run, then a nonempty maximal digit run (the captured group). -/
def matchScoreAt (cs : List Char) : Option Nat :=
  match dropLit "SCORE:".toList cs with
  | none => none
  | some rest =>
    let ds := (rest.dropWhile pyIsSpace).takeWhile Char.isDigit
    if ds = [] then none else some (digitsToNat ds)

def searchScore (cs : List Char) : Option Nat := reSearch matchScoreAt cs

/-- One position of `re.search(r'CONFIDENCE:\s*(HIGH|MEDIUM|LOW)', s)`. -/
def matchConfidenceAt (cs : List Char) : Option String :=
  match dropLit "CONFIDENCE:".toList cs with
  | none => none
  | some rest =>
    let r := rest.dropWhile pyIsSpace
    if "HIGH".toList.isPrefixOf r then some "HIGH"
    else if "MEDIUM".toList.isPrefixOf r then some "MEDIUM"
    else if "LOW".toList.isPrefixOf r then some "LOW"
    else none

def searchConfidence (cs : List Char) : Option String := reSearch matchConfidenceAt cs

/-- One position of `re.search(r'REASONING:\s*(.+)', s, re.DOTALL)`.  The regex
matches iff something follows the literal; the code only ever uses
`group(1).strip()`, which equals the stripped remainder (greedy `\s*` eats the
whitespace prefix and `(.+)` the rest; when the remainder is all whitespace,
backtracking leaves one whitespace char in the group and `strip()` empties it).
We therefore return the raw remainder and let the caller strip it. -/
def matchReasoningAt (cs : List Char) : Option String :=
  match dropLit "REASONING:".toList cs with
  | none => none
  | some rest => if rest = [] then none else some (String.mk rest)

def searchReasoning (cs : List Char) : Option String := reSearch matchReasoningAt cs

/-- One position of the fallback `re.search(r'(\d+)', s)`: a nonempty maximal
digit run. -/
def matchNumberAt (cs : List Char) : Option Nat :=
  let ds := cs.takeWhile Char.isDigit
  if ds = [] then none else some (digitsToNat ds)

def searchNumber (cs : List Char) : Option Nat := reSearch matchNumberAt cs

/-! ## Record Deduplicator

`DataFrame.drop_duplicates(subset=['job_url', 'title'], keep='first')`:
scan in row order, keep the first row bearing each key. -/

def dedupeKey (j : Job) : String × String := (j.job_url, j.title)

def dedupeGo (seen : List (String × String)) : List Job → List Job
  | [] => []
  | j :: rest =>
    if dedupeKey j ∈ seen then dedupeGo seen rest
    else j :: dedupeGo (dedupeKey j :: seen) rest

def drop_duplicates (l : List Job) : List Job := dedupeGo [] l

/-! ## Window Planner: the fixed `time_ranges` schedule (lines 306–322). -/

def time_ranges : List (Option Nat × Option Nat × String) :=
  [ (none, some 24, "Last 24 hours"),
    (some 24, some 48, "24-48 hours"),
    (some 48, some 72, "48-72 hours"),
    (some 72, some 96, "72-96 hours"),
    (some 96, some 120, "96-120 hours"),
    (some 120, some 144, "120-144 hours"),
    (some 144, some 168, "144-168 hours"),
    (some 168, some 192, "168-192 hours"),
    (some 192, some 216, "192-216 hours"),
    (some 216, some 240, "216-240 hours"),
    (some 240, some 264, "240-264 hours"),
    (some 264, some 288, "264-288 hours"),
    (some 288, some 312, "288-312 hours"),
    (some 312, some 336, "312-336 hours (2 weeks)"),
    (some 336, none, "Older than 2 weeks") ]

/-! ## Exhaustive Collector (`scrape_multiple_companies`, lines 278–422)

`scrape results_wanted hours_old` is the upstream call
`scrape_jobs(..., results_wanted=results_wanted, hours_old=hours_old, ...)`
for one fixed company and location.  The second component returned by
`windowLoop` / `collectCompany` is the log of `hours_old` arguments of the
queries actually issued, in order, used to state how many queries a run makes. -/

def windowLoop (scrape : Nat → Option Nat → Except String (List Job)) (results_wanted : Nat) :
    List (Option Nat × Option Nat × String) → List (List Job) × List (Option Nat)
  | [] => ([], [])
  | w :: rest =>
    let prev := windowLoop scrape results_wanted rest
    match scrape results_wanted w.2.1 with
    | Except.ok range_jobs =>
      if 0 < range_jobs.length then
        ((range_jobs.map (fun j => { j with time_range := some w.2.2 })) :: prev.1,
         w.2.1 :: prev.2)
      else (prev.1, w.2.1 :: prev.2)
    | Except.error _ => (prev.1, w.2.1 :: prev.2)

/-- Per-company body of the loop in `scrape_multiple_companies` (lines 289–393).
First component: `none` when the very first query raised (the company
contributes nothing); otherwise the rows this company appends to `all_jobs`.
(The cosmetic `accuracy` statistic computed for the status message, and the UI
progress calls, are not modelled.) -/
def collectCompany (scrape : Nat → Option Nat → Except String (List Job))
    (results_wanted : Nat) (hours_old : Option Nat) (company : String) :
    Option (List Job) × List (Option Nat) :=
  match scrape results_wanted hours_old with
  | Except.error _ => (none, [hours_old])
  | Except.ok initial_jobs =>
    if 950 ≤ initial_jobs.length then
      let wl := windowLoop scrape results_wanted time_ranges
      if wl.1 ≠ [] then
        (some ((drop_duplicates wl.1.flatten).map
            (fun j => { j with search_company := some company })),
         hours_old :: wl.2)
      else
        (some (initial_jobs.map (fun j => { j with search_company := some company })),
         hours_old :: wl.2)
    else
      (some (initial_jobs.map (fun j => { j with search_company := some company })),
       [hours_old])

/-- The `all_jobs` list after the company loop: one entry per company whose
first query did not raise. -/
def collectAll (scrape : String → Nat → Option Nat → Except String (List Job))
    (results_wanted : Nat) (hours_old : Option Nat) (companies : List String) :
    List (List Job) :=
  companies.filterMap (fun company =>
    (collectCompany (scrape company) results_wanted hours_old company).1)

def dateGt : Option Nat → Option Nat → Bool
  | some a, some b => b < a
  | some _, none => true
  | none, _ => false

def insertDate (j : Job) : List Job → List Job
  | [] => [j]
  | x :: xs => if dateGt j.date_posted x.date_posted then j :: x :: xs else x :: insertDate j xs

/-- `sort_values('date_posted', ascending=False)` — newest first, `NaT` last.
(pandas' default quicksort leaves the tie order unspecified; none of the
verified claims depends on tie order.) -/
def sortDateDesc (l : List Job) : List Job := l.foldr insertDate []

/-- Lines 400–422: concat every company's rows, cross-company dedup, date sort.
(`location` is only forwarded to the opaque `scrape`; it is absorbed into the
oracle.) -/
def scrape_multiple_companies (scrape : String → Nat → Option Nat → Except String (List Job))
    (companies : List String) (hours_old : Option Nat) (results_wanted : Nat) : List Job :=
  let all_jobs := collectAll scrape results_wanted hours_old companies
  if all_jobs ≠ [] then sortDateDesc (drop_duplicates all_jobs.flatten) else []

/-! ## Relevance Engine — lexical mode (`smart_job_search`, lines 72–103). -/

/-- The static synonym table `create_job_synonyms` (lines 22–70).  It is
declared in the source but never consulted by `smart_job_search`. -/
def create_job_synonyms : List (String × List String) :=
  [ ("product manager", ["product manager", "program manager", "product owner", "pm"]),
    ("program manager", ["program manager", "product manager", "project manager", "pm"]),
    ("project manager", ["project manager", "program manager", "product manager", "pm"]),
    ("software engineer", ["software engineer", "developer", "programmer", "software developer", "engineer"]),
    ("developer", ["developer", "software engineer", "programmer", "software developer", "engineer"]),
    ("programmer", ["programmer", "developer", "software engineer", "software developer"]),
    ("engineer", ["engineer", "software engineer", "developer", "programmer"]),
    ("data scientist", ["data scientist", "data analyst", "analytics", "data engineer"]),
    ("data analyst", ["data analyst", "data scientist", "analytics", "business analyst"]),
    ("data engineer", ["data engineer", "data scientist", "analytics engineer"]),
    ("designer", ["designer", "ux designer", "ui designer", "product designer", "graphic designer"]),
    ("ux designer", ["ux designer", "ui designer", "product designer", "designer"]),
    ("ui designer", ["ui designer", "ux designer", "product designer", "designer"]),
    ("marketing manager", ["marketing manager", "marketing", "digital marketing", "marketing specialist"]),
    ("marketing", ["marketing", "marketing manager", "digital marketing", "marketing specialist"]),
    ("sales", ["sales", "account manager", "sales manager", "sales representative"]),
    ("account manager", ["account manager", "sales", "sales manager", "customer success"]),
    ("operations", ["operations", "ops", "operations manager", "business operations"]),
    ("ops", ["ops", "operations", "operations manager", "business operations"]),
    ("analyst", ["analyst", "financial analyst", "business analyst", "data analyst"]),
    ("financial analyst", ["financial analyst", "analyst", "finance", "business analyst"]),
    ("hr", ["hr", "human resources", "recruiter", "talent acquisition"]),
    ("recruiter", ["recruiter", "hr", "human resources", "talent acquisition"]),
    ("customer success", ["customer success", "account manager", "customer support"]),
    ("customer support", ["customer support", "customer success", "support"]) ]

/-- The loop body of `smart_job_search` (lines 86–97): exact phrase, or every
word (multi-word query), or the single word. -/
def keepJob (search_words : List String) (q : String) (job : Job) : Bool :=
  let job_title := pyLower job.title
  strContains job_title q
    || (decide (1 < search_words.length) && search_words.all (fun w => strContains job_title w))
    || (decide (search_words.length = 1) && strContains job_title (search_words.headD ""))

/-- `smart_job_search` (lines 72–103).  The `threshold` parameter is accepted
and, as in the source, never used.  Python's `search_query.split()` splits on
whitespace runs and drops empties. -/
def smart_job_search (jobs_df : List Job) (search_query : String) (threshold : Nat) :
    List Job :=
  if search_query = "" ∨ pyStrip search_query = "" then jobs_df
  else
    let q := pyStrip (pyLower search_query)
    let search_words := pySplit q
    jobs_df.filter (keepJob search_words q)

/-! ## Relevance Engine — AI mode (`ai_filter_jobs`, lines 105–256). -/

/-- The per-row body of the scoring loop (lines 124–236).  `callModel job` is
the whole `client.chat.completions.create` call on the prompt built from
`job`; `.error` is "the call raised" (line 234).  Returns the annotated row
appended to `scored_jobs`, or `none` when the row is dropped or skipped. -/
def scoreOneJob (callModel : Job → Except String String) (min_score : Nat) (job : Job) :
    Option Job :=
  match callModel job with
  | Except.error _ => none
  | Except.ok response =>
    let ai_response := pyStrip response
    match searchScore ai_response.toList, searchConfidence ai_response.toList,
          searchReasoning ai_response.toList with
    | some score, some confidence, some reasoning =>
      let job_with_score :=
        { job with ai_score := some score, ai_confidence := some confidence,
                   ai_reasoning := some (pyStrip reasoning) }
      if min_score ≤ score then some job_with_score else none
    | _, _, _ =>
      match searchNumber ai_response.toList with
      | some n =>
        let score := min 100 (max 0 n)
        let job_with_score :=
          { job with ai_score := some score, ai_confidence := some "LOW",
                     ai_reasoning := some "Fallback parsing used" }
        if min_score ≤ score then some job_with_score else none
      | none => none

def scoreGe (a b : Job) : Bool := b.ai_score.getD 0 ≤ a.ai_score.getD 0

def insertScore (j : Job) : List Job → List Job
  | [] => [j]
  | x :: xs => if x.ai_score.getD 0 < j.ai_score.getD 0 then j :: x :: xs else x :: insertScore j xs

/-- `sort_values('ai_score', ascending=False)` (line 247); as with the date
sort, pandas' tie order is unspecified and no claim depends on it. -/
def sortScoreDesc (l : List Job) : List Job := l.foldr insertScore []

/-- `ai_filter_jobs` (lines 105–256). -/
def ai_filter_jobs (callModel : Job → Except String String) (jobs_df : List Job)
    (user_target : String) (min_score : Nat) : List Job :=
  if user_target = "" ∨ pyStrip user_target = "" then jobs_df
  else
    let scored_jobs := jobs_df.filterMap (scoreOneJob callModel min_score)
    if scored_jobs ≠ [] then sortScoreDesc scored_jobs else []

/-! ## Sample records used by witnesses and counterexamples. -/

def job0 : Job :=
  { title := "Data Scientist", company := "Acme", location := "NYC",
    description := "ml", job_url := "https://x/1", date_posted := some 10,
    time_range := none, search_company := none,
    ai_score := none, ai_confidence := none, ai_reasoning := none }

def jobA : Job :=
  { title := "Analyst", company := "Acme", location := "NYC",
    description := "a", job_url := "https://x/2", date_posted := some 11,
    time_range := none, search_company := none,
    ai_score := none, ai_confidence := none, ai_reasoning := none }

/-- Same dedup key as `jobA`, different payload: a cross-company duplicate. -/
def jobA2 : Job :=
  { title := "Analyst", company := "Acme Inc", location := "SF",
    description := "b", job_url := "https://x/2", date_posted := some 12,
    time_range := none, search_company := none,
    ai_score := none, ai_confidence := none, ai_reasoning := none }

def jobSD : Job :=
  { title := "Software Developer", company := "Acme", location := "NYC",
    description := "dev", job_url := "https://x/3", date_posted := some 13,
    time_range := none, search_company := none,
    ai_score := none, ai_confidence := none, ai_reasoning := none }

/-! ## Helper lemmas about the deduplicator -/

theorem dedupeGo_not_seen (l : List Job) :
    ∀ seen x, x ∈ dedupeGo seen l → dedupeKey x ∉ seen := by
  induction l with
  | nil => simp [dedupeGo]
  | cons j rest ih =>
    intro seen x hx
    by_cases hj : dedupeKey j ∈ seen
    · rw [dedupeGo, if_pos hj] at hx
      exact ih seen x hx
    · rw [dedupeGo, if_neg hj] at hx
      rcases List.mem_cons.mp hx with rfl | hx'
      · exact hj
      · have h2 := ih _ x hx'
        intro hmem
        exact h2 (List.mem_cons_of_mem _ hmem)

theorem dedupeGo_pairwise (l : List Job) :
    ∀ seen, (dedupeGo seen l).Pairwise fun a b => dedupeKey a ≠ dedupeKey b := by
  induction l with
  | nil => intro seen; simp [dedupeGo]
  | cons j rest ih =>
    intro seen
    by_cases hj : dedupeKey j ∈ seen
    · rw [dedupeGo, if_pos hj]; exact ih seen
    · rw [dedupeGo, if_neg hj]
      refine List.Pairwise.cons ?_ (ih _)
      intro b hb he
      exact dedupeGo_not_seen rest (dedupeKey j :: seen) b hb
        (by rw [← he]; exact List.mem_cons_self _ _)

theorem dedupeGo_find (l : List Job) :
    ∀ seen j, j ∈ dedupeGo seen l →
      l.find? (fun x => decide (dedupeKey x = dedupeKey j)) = some j := by
  induction l with
  | nil => simp [dedupeGo]
  | cons x rest ih =>
    intro seen j hj
    by_cases hx : dedupeKey x ∈ seen
    · rw [dedupeGo, if_pos hx] at hj
      have hne : dedupeKey x ≠ dedupeKey j := by
        intro he
        exact dedupeGo_not_seen rest seen j hj (he ▸ hx)
      rw [List.find?_cons_of_neg _ (by simpa using hne)]
      exact ih seen j hj
    · rw [dedupeGo, if_neg hx] at hj
      rcases List.mem_cons.mp hj with rfl | hj'
      · exact List.find?_cons_of_pos _ (by simp)
      · have hns := dedupeGo_not_seen rest (dedupeKey x :: seen) j hj'
        have hne : dedupeKey x ≠ dedupeKey j := by
          intro he
          exact hns (by rw [← he]; exact List.mem_cons_self _ _)
        rw [List.find?_cons_of_neg _ (by simpa using hne)]
        exact ih _ j hj'

theorem dedupeGo_key_covered (l : List Job) :
    ∀ seen r, r ∈ l → dedupeKey r ∉ seen →
      ∃ r' ∈ dedupeGo seen l, dedupeKey r' = dedupeKey r := by
  induction l with
  | nil => simp
  | cons x rest ih =>
    intro seen r hr hrs
    rcases List.mem_cons.mp hr with rfl | hr'
    · rw [dedupeGo, if_neg hrs]
      exact ⟨r, List.mem_cons_self _ _, rfl⟩
    · by_cases hx : dedupeKey x ∈ seen
      · rw [dedupeGo, if_pos hx]
        exact ih seen r hr' hrs
      · rw [dedupeGo, if_neg hx]
        by_cases hk : dedupeKey r = dedupeKey x
        · exact ⟨x, List.mem_cons_self _ _, hk.symm⟩
        · have hnotin : dedupeKey r ∉ dedupeKey x :: seen := by
            intro h
            rcases List.mem_cons.mp h with h1 | h2
            · exact hk h1
            · exact hrs h2
          obtain ⟨r', hr'', hkey⟩ := ih (dedupeKey x :: seen) r hr' hnotin
          exact ⟨r', List.mem_cons_of_mem _ hr'', hkey⟩

/-- C2: deduplication by `(job_url, title)` leaves no two records with the
same key; each retained record is the first record of the input bearing its
key (`find?` returns the lowest-index match); and across a concatenation of an
earlier employer's records with later ones, a retained record whose key
already occurs in the earlier block belongs to the earlier block. -/
theorem dedupe_first_seen (l l₁ l₂ : List Job) (j : Job)
    (h1 : j ∈ drop_duplicates (l₁ ++ l₂))
    (h2 : ∃ x ∈ l₁, dedupeKey x = dedupeKey j) :
    ((drop_duplicates l).Pairwise fun a b => dedupeKey a ≠ dedupeKey b) ∧
    (∀ r ∈ drop_duplicates l,
      l.find? (fun x => decide (dedupeKey x = dedupeKey r)) = some r) ∧
    j ∈ l₁ := by
  refine ⟨dedupeGo_pairwise l [], fun r hr => dedupeGo_find l [] r hr, ?_⟩
  have hfind := dedupeGo_find (l₁ ++ l₂) [] j h1
  rw [List.find?_append] at hfind
  obtain ⟨x, hx, hkey⟩ := h2
  have hsome : (l₁.find? fun y => decide (dedupeKey y = dedupeKey j)).isSome := by
    rw [List.find?_isSome]
    exact ⟨x, hx, by simpa using hkey⟩
  obtain ⟨y, hy⟩ := Option.isSome_iff_exists.mp hsome
  rw [hy] at hfind
  simp only [Option.or, Option.some.injEq] at hfind
  exact List.mem_of_find?_eq_some (hfind ▸ hy)

/-- Witness for C2 at a concrete duplicate pair: `jobA` and `jobA2` share a
key; the copy from the earlier block is retained. -/
theorem dedupe_first_seen_witness :
    ((drop_duplicates [jobA, jobA2]).Pairwise fun a b => dedupeKey a ≠ dedupeKey b) ∧
    (∀ r ∈ drop_duplicates [jobA, jobA2],
      [jobA, jobA2].find? (fun x => decide (dedupeKey x = dedupeKey r)) = some r) ∧
    jobA ∈ [jobA] :=
  dedupe_first_seen [jobA, jobA2] [jobA] [jobA2] jobA (by decide) (by decide)

/-! ## Helper lemmas about the windowed collector -/

theorem windowLoop_log (scrape : Nat → Option Nat → Except String (List Job))
    (results_wanted : Nat) :
    ∀ ws, (windowLoop scrape results_wanted ws).2 = ws.map fun w => w.2.1 := by
  intro ws
  induction ws with
  | nil => rfl
  | cons w rest ih =>
    cases h : scrape results_wanted w.2.1 with
    | ok rj =>
      simp only [windowLoop, h]
      split <;> simp [ih]
    | error e =>
      simp only [windowLoop, h]
      simp [ih]

theorem windowLoop_batch_mem (scrape : Nat → Option Nat → Except String (List Job))
    (results_wanted : Nat) (ws : List (Option Nat × Option Nat × String))
    (w : Option Nat × Option Nat × String) (l : List Job)
    (hw : w ∈ ws) (hok : scrape results_wanted w.2.1 = Except.ok l) (hne : l ≠ []) :
    (l.map fun j => { j with time_range := some w.2.2 })
      ∈ (windowLoop scrape results_wanted ws).1 := by
  induction hw with
  | head rest =>
    simp only [windowLoop, hok]
    rw [if_pos (List.length_pos.mpr hne)]
    exact List.mem_cons_self _ _
  | tail v hw' ih =>
    cases h : scrape results_wanted v.2.1 with
    | ok rj =>
      simp only [windowLoop, h]
      split
      · exact List.mem_cons_of_mem _ ih
      · exact ih
    | error e =>
      simpa only [windowLoop, h] using ih

theorem windowLoop_all_empty (scrape : Nat → Option Nat → Except String (List Job))
    (results_wanted : Nat) :
    ∀ ws, (∀ w ∈ ws, ∀ l, scrape results_wanted w.2.1 = Except.ok l → l = []) →
      (windowLoop scrape results_wanted ws).1 = [] := by
  intro ws
  induction ws with
  | nil => intro _; rfl
  | cons v rest ih =>
    intro h
    have hrest := ih fun w hw l hl => h w (List.mem_cons_of_mem _ hw) l hl
    cases hv : scrape results_wanted v.2.1 with
    | ok rj =>
      have hnil : rj = [] := h v (List.mem_cons_self _ _) rj hv
      subst hnil
      simp [windowLoop, hv, hrest]
    | error e => simp [windowLoop, hv, hrest]

/-- C1 counterexample: with `cap = 100` the first query returns 100 records —
at least 95% of `cap` — yet the Collector issues exactly one query
(`.2 = [none]` is the full query log) and never enters windowed collection:
the saturation test compares against the constant 950, not against `cap`. -/
theorem collect_saturation_cex :
    (collectCompany (fun _ _ => Except.ok (List.replicate 100 job0)) 100 none "Acme").2
        = [none]
      ∧ 95 * 100 ≤ (List.replicate 100 job0).length * 100 :=
  ⟨rfl, by simp⟩

/-- C1 amended: the saturation threshold is the fixed count 950 (95% of the
upstream hard cap of 1000), independent of `results_wanted`: below 950 the
Collector issues exactly the one initial query; at or above 950 it issues the
initial query plus exactly one query per window of the full fixed schedule
(each window is queried with its end bound even when it yields no records). -/
theorem collect_query_schedule (scrape : Nat → Option Nat → Except String (List Job))
    (results_wanted : Nat) (hours_old : Option Nat) (company : String) (l : List Job)
    (h : scrape results_wanted hours_old = Except.ok l) :
    (l.length < 950 →
      (collectCompany scrape results_wanted hours_old company).2 = [hours_old]) ∧
    (950 ≤ l.length →
      (collectCompany scrape results_wanted hours_old company).2
        = hours_old :: time_ranges.map fun w => w.2.1) := by
  constructor
  · intro hlt
    simp only [collectCompany, h]
    rw [if_neg (by omega)]
  · intro hge
    simp only [collectCompany, h, if_pos hge]
    split <;> simp [windowLoop_log]

/-- Witness for C1 (amended): an unsaturated run issues exactly one query. -/
theorem collect_query_schedule_witness :
    (collectCompany (fun _ _ => Except.ok ([] : List Job)) 5 none "X").2 = [none] :=
  (collect_query_schedule (fun _ _ => Except.ok []) 5 none "X" [] rfl).1 (by decide)

/-- C5: however the other windows behave (failing or not), a window of the
schedule whose query succeeds with a nonempty batch contributes records to the
employer's final collected set (some record with each such record's identity
key survives dedup), and the loop queries every window of the schedule —
iteration is not aborted by failures. -/
theorem window_failure_isolation (scrape : Nat → Option Nat → Except String (List Job))
    (results_wanted : Nat) (hours_old : Option Nat) (company : String)
    (w : Option Nat × Option Nat × String) (init l : List Job)
    (hinit : scrape results_wanted hours_old = Except.ok init)
    (hsat : 950 ≤ init.length)
    (hw : w ∈ time_ranges)
    (hok : scrape results_wanted w.2.1 = Except.ok l) (hne : l ≠ []) :
    ((windowLoop scrape results_wanted time_ranges).2 = time_ranges.map fun v => v.2.1) ∧
    ∀ r ∈ l, ∃ r' ∈ (collectCompany scrape results_wanted hours_old company).1.getD [],
      r'.job_url = r.job_url ∧ r'.title = r.title := by
  refine ⟨windowLoop_log scrape results_wanted time_ranges, ?_⟩
  intro r hr
  have hbatch := windowLoop_batch_mem scrape results_wanted time_ranges w l hw hok hne
  have hmemtag : ({ r with time_range := some w.2.2 } : Job)
      ∈ (windowLoop scrape results_wanted time_ranges).1.flatten :=
    List.mem_flatten.mpr ⟨_, hbatch, List.mem_map_of_mem _ hr⟩
  have hwlne : (windowLoop scrape results_wanted time_ranges).1 ≠ [] :=
    List.ne_nil_of_mem hbatch
  obtain ⟨r', hr', hkey⟩ :=
    dedupeGo_key_covered _ [] _ hmemtag (by simp)
  have hkey' : r'.job_url = r.job_url ∧ r'.title = r.title := by
    simpa [dedupeKey, Prod.ext_iff] using hkey
  refine ⟨{ r' with search_company := some company }, ?_, hkey'.1, hkey'.2⟩
  simp only [collectCompany, hinit, if_pos hsat]
  rw [if_pos hwlne]
  exact List.mem_map_of_mem _ hr'

def scrapeW5 : Nat → Option Nat → Except String (List Job) := fun _ h =>
  if h = some 1 then Except.ok (List.replicate 950 job0)
  else if h = some 24 then Except.ok [jobA]
  else Except.error "boom"

/-- Witness for C5: every window except "Last 24 hours" fails, yet that
window's record survives into the collected set. -/
theorem window_failure_isolation_witness :
    ∃ r' ∈ (collectCompany scrapeW5 1000 (some 1) "Acme").1.getD [],
      r'.job_url = jobA.job_url ∧ r'.title = jobA.title :=
  (window_failure_isolation scrapeW5 1000 (some 1) "Acme" (none, some 24, "Last 24 hours")
      (List.replicate 950 job0) [jobA] rfl (by rw [List.length_replicate]) (by decide) rfl (by decide)).2
    jobA (List.mem_cons_self _ _)

/-- C6: when the first query saturates but every window of the schedule fails
or returns no records, the Collector falls back to the initial batch, so the
employer still contributes its step-1 records. -/
theorem collect_windowed_empty_fallback (scrape : Nat → Option Nat → Except String (List Job))
    (results_wanted : Nat) (hours_old : Option Nat) (company : String) (init : List Job)
    (hinit : scrape results_wanted hours_old = Except.ok init)
    (hsat : 950 ≤ init.length)
    (hempty : ∀ w ∈ time_ranges, ∀ l, scrape results_wanted w.2.1 = Except.ok l → l = []) :
    (collectCompany scrape results_wanted hours_old company).1
      = some (init.map fun j => { j with search_company := some company }) := by
  have hwl := windowLoop_all_empty scrape results_wanted time_ranges hempty
  simp only [collectCompany, hinit, if_pos hsat]
  rw [if_neg (by simp [hwl])]

def scrapeW6 : Nat → Option Nat → Except String (List Job) := fun _ h =>
  if h = some 1 then Except.ok (List.replicate 950 job0) else Except.ok []

/-- Witness for C6: all windows return empty; the initial 950-record batch is
what the employer contributes. -/
theorem collect_windowed_empty_fallback_witness :
    (collectCompany scrapeW6 1000 (some 1) "Acme").1
      = some ((List.replicate 950 job0).map fun j =>
          { j with search_company := some "Acme" }) :=
  collect_windowed_empty_fallback scrapeW6 1000 (some 1) "Acme" (List.replicate 950 job0)
    rfl (by rw [List.length_replicate]) (by intro w hw l hl; fin_cases hw <;> simp_all [scrapeW6])

/-- C7: an employer whose very first query raises contributes no records, and
its presence anywhere in the request changes nothing for the other employers —
the per-employer results and the final merged output are those of the run
without it. -/
theorem employer_failure_isolation
    (scrape : String → Nat → Option Nat → Except String (List Job))
    (results_wanted : Nat) (hours_old : Option Nat) (xs ys : List String) (c e : String)
    (hfail : scrape c results_wanted hours_old = Except.error e) :
    (collectCompany (scrape c) results_wanted hours_old c).1 = none ∧
    collectAll scrape results_wanted hours_old (xs ++ c :: ys)
      = collectAll scrape results_wanted hours_old (xs ++ ys) ∧
    scrape_multiple_companies scrape (xs ++ c :: ys) hours_old results_wanted
      = scrape_multiple_companies scrape (xs ++ ys) hours_old results_wanted := by
  have h1 : (collectCompany (scrape c) results_wanted hours_old c).1 = none := by
    simp [collectCompany, hfail]
  have h2 : collectAll scrape results_wanted hours_old (xs ++ c :: ys)
      = collectAll scrape results_wanted hours_old (xs ++ ys) := by
    simp [collectAll, List.filterMap_append, List.filterMap_cons, h1]
  exact ⟨h1, h2, by simp only [scrape_multiple_companies, h2]⟩

def scrapeW7 : String → Nat → Option Nat → Except String (List Job) := fun comp _ _ =>
  if comp = "Bad" then Except.error "x" else Except.ok [jobA]

/-- Witness for C7: removing the failing employer "Bad" from the request does
not change the collected per-employer results. -/
theorem employer_failure_isolation_witness :
    collectAll scrapeW7 100 none ["A", "Bad", "B"]
      = collectAll scrapeW7 100 none ["A", "B"] :=
  (employer_failure_isolation scrapeW7 100 none ["A"] ["B"] "Bad" "x" rfl).2.1

/-- C3 counterexample: for query "software engineer", the title "Software
Developer" contains the query token "software" — per the claim it scores 85
(Tier C), survives the primary threshold 80 (and a fortiori the retry
threshold 70), and must be returned; `smart_job_search` returns the empty
list: the code assigns no tier scores and keeps multi-word queries only when
every token appears. -/
theorem lexical_no_tier_scores_cex :
    smart_job_search [jobSD] "software engineer" 60 = [] ∧
    strContains (pyLower jobSD.title) "software" = true :=
  ⟨rfl, rfl⟩

/-- C3 amended: for a nonempty query the lexical filter keeps exactly the jobs
whose lowercased title contains the normalized query as a substring, or every
whitespace-delimited token (multi-word query), or the single token; kept jobs
retain their original relative order; no scores are assigned and no
synonym-expansion, fuzzy fallback or threshold retry takes place. -/
theorem smart_search_filter (jobs : List Job) (q : String) (t : Nat)
    (h : ¬(q = "" ∨ pyStrip q = "")) :
    (smart_job_search jobs q t).Sublist jobs ∧
    ∀ job, job ∈ smart_job_search jobs q t ↔
      job ∈ jobs ∧
        keepJob (pySplit (pyStrip (pyLower q))) (pyStrip (pyLower q)) job = true := by
  constructor
  · simp only [smart_job_search, if_neg h]
    exact List.filter_sublist _
  · intro job
    simp only [smart_job_search, if_neg h]
    exact List.mem_filter

/-- Witness for C3 (amended) at a concrete query. -/
theorem smart_search_filter_witness :
    (smart_job_search [jobSD] "developer" 60).Sublist [jobSD] :=
  (smart_search_filter [jobSD] "developer" 60 (by decide)).1

/-- C10: an empty or whitespace-only query/target makes both relevance
filters the identity on the record set. -/
theorem empty_query_identity (jobs : List Job) (q : String) (t : Nat)
    (callModel : Job → Except String String) (ms : Nat)
    (h : q = "" ∨ pyStrip q = "") :
    smart_job_search jobs q t = jobs ∧ ai_filter_jobs callModel jobs q ms = jobs := by
  constructor
  · simp only [smart_job_search, if_pos h]
  · simp only [ai_filter_jobs, if_pos h]

/-- Witness for C10 at a whitespace-only query. -/
theorem empty_query_identity_witness :
    smart_job_search [job0] "   " 60 = [job0] :=
  (empty_query_identity [job0] "   " 60 (fun _ => Except.ok "") 50 (by decide)).1

/-! ## AI scoring claims -/

theorem scoreOne_if_eq_some (job k : Job) (sc : Nat) (conf reas : String) (min_score : Nat)
    (hk : (if min_score ≤ sc then
            some ({ job with
                    ai_score := some sc, ai_confidence := some conf,
                    ai_reasoning := some reas })
          else none) = some k) :
    k.ai_score = some sc ∧ min_score ≤ sc := by
  by_cases hle : min_score ≤ sc
  · rw [if_pos hle] at hk
    injection hk with hk
    subst hk
    exact ⟨rfl, hle⟩
  · rw [if_neg hle] at hk
    cases hk

/-- C8: a failing model call makes the record contribute nothing — it is
neither kept nor annotated — and the rest of the record set is scored exactly
as if the record were absent. -/
theorem ai_call_failure_skips (callModel : Job → Except String String)
    (target : String) (ms : Nat) (job : Job) (msg : String)
    (htarget : ¬(target = "" ∨ pyStrip target = ""))
    (hfail : callModel job = Except.error msg) :
    scoreOneJob callModel ms job = none ∧
    ∀ js₁ js₂ : List Job,
      ai_filter_jobs callModel (js₁ ++ job :: js₂) target ms
        = ai_filter_jobs callModel (js₁ ++ js₂) target ms := by
  have h1 : scoreOneJob callModel ms job = none := by
    simp [scoreOneJob, hfail]
  refine ⟨h1, fun js₁ js₂ => ?_⟩
  simp only [ai_filter_jobs, if_neg htarget, List.filterMap_append, List.filterMap_cons, h1]

def modelW8 : Job → Except String String := fun _ => Except.error "timeout"

/-- Witness for C8: a timed-out call yields no annotation and no effect on the
rest of the set. -/
theorem ai_call_failure_skips_witness :
    scoreOneJob modelW8 50 job0 = none ∧
    ai_filter_jobs modelW8 [job0] "x" 50 = ai_filter_jobs modelW8 [] "x" 50 := by
  have h := ai_call_failure_skips modelW8 "x" 50 job0 "timeout" (by decide) rfl
  exact ⟨h.1, h.2 [] []⟩

/-- C4 counterexample: the response "172" fails the structured pattern; its
first (standalone) number is 172 and it contains the substring "72".  The
claim (and the spec's example) dictate a fallback score of 172 (resp. 72);
the code clamps the extracted number and attaches score 100. -/
theorem ai_fallback_clamp_cex :
    (ai_filter_jobs (fun _ => Except.ok "172") [job0] "t" 50).map (fun j => j.ai_score)
        = [some 100]
      ∧ searchScore (pyStrip "172").toList = none
      ∧ searchNumber (pyStrip "172").toList = some 172 :=
  ⟨rfl, rfl, rfl⟩

/-- C4 amended: a record whose structured response parses with a score below
`min_score` is dropped without affecting the rest of the set (and nothing is
raised — the embedding is total); when the structured pattern fails, the
engine extracts the first maximal digit run of the response, clamps it to
0–100, fixes confidence LOW, and applies the same keep/drop rule to the
clamped value. -/
theorem ai_parse_keep_drop (callModel : Job → Except String String)
    (target : String) (min_score : Nat) (job : Job) (resp : String)
    (htarget : ¬(target = "" ∨ pyStrip target = ""))
    (hresp : callModel job = Except.ok resp) :
    (∀ s c r, searchScore (pyStrip resp).toList = some s →
      searchConfidence (pyStrip resp).toList = some c →
      searchReasoning (pyStrip resp).toList = some r → s < min_score →
      scoreOneJob callModel min_score job = none ∧
      ∀ js₁ js₂ : List Job,
        ai_filter_jobs callModel (js₁ ++ job :: js₂) target min_score
          = ai_filter_jobs callModel (js₁ ++ js₂) target min_score) ∧
    ((searchScore (pyStrip resp).toList = none ∨ searchConfidence (pyStrip resp).toList = none ∨
        searchReasoning (pyStrip resp).toList = none) →
      ∀ n, searchNumber (pyStrip resp).toList = some n →
        scoreOneJob callModel min_score job =
          (if min_score ≤ min 100 (max 0 n) then
            some { job with
                   ai_score := some (min 100 (max 0 n)),
                   ai_confidence := some "LOW",
                   ai_reasoning := some "Fallback parsing used" }
          else none)) := by
  constructor
  · intro s c r hs hc hr hlt
    have hnone : scoreOneJob callModel min_score job = none := by
      simp only [scoreOneJob, hresp, hs, hc, hr]
      rw [if_neg (by omega)]
    refine ⟨hnone, fun js₁ js₂ => ?_⟩
    simp only [ai_filter_jobs, if_neg htarget, List.filterMap_append, List.filterMap_cons,
      hnone]
  · intro hfail n hn
    have key : scoreOneJob callModel min_score job
        = match searchNumber (pyStrip resp).toList with
          | some n' =>
            if min_score ≤ min 100 (max 0 n') then
              some { job with
                     ai_score := some (min 100 (max 0 n')),
                     ai_confidence := some "LOW",
                     ai_reasoning := some "Fallback parsing used" }
            else none
          | none => none := by
      rcases hS : searchScore (pyStrip resp).toList with _ | s0 <;>
        rcases hC : searchConfidence (pyStrip resp).toList with _ | c0 <;>
          rcases hR : searchReasoning (pyStrip resp).toList with _ | r0 <;>
            simp only [scoreOneJob, hresp, hS, hC, hR] <;>
              first
              | rfl
              | (rcases hfail with h | h | h <;> simp_all)
    rw [key, hn]

def modelW4 : Job → Except String String :=
  fun _ => Except.ok "SCORE: 45\nCONFIDENCE: LOW\nREASONING: meh"

/-- Witness for C4 (amended): parsed score 45 with `min_score = 50` — dropped,
no exception, rest of the set unaffected. -/
theorem ai_parse_keep_drop_witness :
    scoreOneJob modelW4 50 job0 = none ∧
    ai_filter_jobs modelW4 [job0] "t" 50 = ai_filter_jobs modelW4 [] "t" 50 := by
  have h := (ai_parse_keep_drop modelW4 "t" 50 job0
      "SCORE: 45\nCONFIDENCE: LOW\nREASONING: meh" (by decide) rfl).1
      45 "LOW" " meh" rfl rfl rfl (by decide)
  exact ⟨h.1, h.2 [] []⟩

/-- C9 counterexample: a structured response announcing SCORE: 150 parses, and
the engine attaches the score 150 — outside 0–100 — to the kept record. -/
theorem ai_structured_unclamped_cex :
    (ai_filter_jobs (fun _ => Except.ok "SCORE: 150\nCONFIDENCE: HIGH\nREASONING: great")
        [job0] "t" 50).map (fun j => j.ai_score) = [some 150]
      ∧ 100 < 150 :=
  ⟨rfl, by decide⟩

/-- C9 amended: every attached score is a natural number ≥ `min_score`; scores
produced by the fallback path (structured parse failed) are additionally
clamped to at most 100; the structured path attaches the parsed value without
an upper clamp. -/
theorem ai_score_bounds (callModel : Job → Except String String) (min_score : Nat)
    (job k : Job) (resp : String)
    (hresp : callModel job = Except.ok resp)
    (hk : scoreOneJob callModel min_score job = some k) :
    (∃ sc, k.ai_score = some sc ∧ min_score ≤ sc) ∧
    ((searchScore (pyStrip resp).toList = none ∨ searchConfidence (pyStrip resp).toList = none ∨
        searchReasoning (pyStrip resp).toList = none) →
      ∃ sc, k.ai_score = some sc ∧ sc ≤ 100) := by
  rcases hS : searchScore (pyStrip resp).toList with _ | s0 <;>
    rcases hC : searchConfidence (pyStrip resp).toList with _ | c0 <;>
      rcases hR : searchReasoning (pyStrip resp).toList with _ | r0 <;>
        simp only [scoreOneJob, hresp, hS, hC, hR] at hk
  all_goals try {
    rcases hN : searchNumber (pyStrip resp).toList with _ | n
    · rw [hN] at hk
      simp at hk
    · rw [hN] at hk
      obtain ⟨hsc, hge⟩ := scoreOne_if_eq_some job k _ _ _ min_score hk
      exact ⟨⟨_, hsc, hge⟩, fun _ => ⟨_, hsc, Nat.min_le_left _ _⟩⟩
  }
  obtain ⟨hsc, hge⟩ := scoreOne_if_eq_some job k s0 c0 (pyStrip r0) min_score hk
  refine ⟨⟨s0, hsc, hge⟩, fun hfail => ?_⟩
  rcases hfail with h | h | h <;> simp_all

def modelW9 : Job → Except String String := fun _ => Except.ok "72"

def k72 : Job :=
  { job0 with
    ai_score := some 72, ai_confidence := some "LOW",
    ai_reasoning := some "Fallback parsing used" }

/-- Witness for C9 (amended): the fallback-scored record for response "72"
carries a score within the 0–100 bound. -/
theorem ai_score_bounds_witness :
    ∃ sc, k72.ai_score = some sc ∧ sc ≤ 100 :=
  (ai_score_bounds modelW9 50 job0 k72 "72" rfl rfl).2 (Or.inl rfl)

end JobSpy
